import Mathlib

/-!
Verification development for the map explorer's data layer (`map.js`):
table construction from SPARQL result rows, continent aggregation,
year-note formatting, the lazy preload state machine, and the
retry/backoff fetch wrapper.  JavaScript numbers are modelled as
`Option Int` (`none` plays the role of `NaN`); the model restricts
numeric string literals to (signed) integer literals, which covers all
count-valued fields handled by this code.
-/

set_option maxRecDepth 4000

/-- A JavaScript number that is either an integer value or `NaN`. -/
abbrev JSNum := Option Int

/-- `x || 0` applied to a JS number: `NaN` and `0` are falsy, so both map to `0`. -/
def jsOrZero (v : JSNum) : Int :=
  match v with
  | none => 0
  | some n => n

/-- Digits taken from the front of a character list (used by `parseInt`). -/
def leadingDigits (cs : List Char) : List Char :=
  cs.takeWhile Char.isDigit

/-- Numeric value of a digit list. -/
def digitsVal (cs : List Char) : Nat :=
  cs.foldl (fun a c => 10 * a + (c.toNat - 48)) 0

/-- Model of JavaScript `parseInt(s, 10)`: skip leading whitespace, read an
optional sign, then the longest prefix of decimal digits; `NaN` (here `none`)
when no digit is found. -/
def parseIntJS (s : String) : Option Int :=
  let cs := s.toList.dropWhile Char.isWhitespace
  match cs with
  | '-' :: rest =>
      let ds := leadingDigits rest
      if ds.isEmpty then none else some (-(digitsVal ds : Int))
  | '+' :: rest =>
      let ds := leadingDigits rest
      if ds.isEmpty then none else some (digitsVal ds : Int)
  | _ =>
      let ds := leadingDigits cs
      if ds.isEmpty then none else some (digitsVal ds : Int)

/-- Model of JavaScript `Number(s)` (unary `+`) on an integer-literal string:
whitespace-trimmed empty string is `0`; an optional sign followed by digits
(consuming the whole string) is that integer; anything else is `NaN`.
Non-integer numeric literals do not occur in the count-valued fields modelled
here. -/
def jsToNumber (s : String) : JSNum :=
  let cs := (s.toList.dropWhile Char.isWhitespace).reverse.dropWhile Char.isWhitespace |>.reverse
  match cs with
  | [] => some 0
  | '-' :: rest =>
      if rest ≠ [] ∧ rest.all Char.isDigit then some (-(digitsVal rest : Int)) else none
  | '+' :: rest =>
      if rest ≠ [] ∧ rest.all Char.isDigit then some (digitsVal rest : Int) else none
  | _ =>
      if cs.all Char.isDigit then some (digitsVal cs : Int) else none

/-- Model of `+(r.field?.value || 0)`: an absent binding (`undefined`) and the
empty string are falsy and coerce to `0`; any other string goes through
`Number()`. -/
def jsPlusCoerce (v : Option String) : JSNum :=
  match v with
  | none => some 0
  | some s => if s = "" then some 0 else jsToNumber s

/-- Insertion-ordered finite map keyed by the numeric ISO code, modelling a JS
`Map`. -/
abbrev JsMap (α : Type) := List (Int × α)

/-- `Map.get(k)`. -/
def mget {α : Type} (m : JsMap α) (k : Int) : Option α :=
  (m.find? (fun p => p.1 == k)).map (·.2)

/-- `Map.set(k, v)`: replaces in place when the key exists, otherwise appends. -/
def mset {α : Type} (m : JsMap α) (k : Int) (v : α) : JsMap α :=
  if m.any (fun p => p.1 == k) then
    m.map (fun p => if p.1 == k then (k, v) else p)
  else
    m ++ [(k, v)]

/-- The key list of a map state. -/
def keysOf {α : Type} (m : JsMap α) : List Int :=
  m.map (·.1)

/-- One raw binding row of the endemic-species query result (`Q_END_EMD`).
Each SPARQL binding value arrives as a string; an absent binding is `none`. -/
structure EndemicRaw where
  countryLabel : Option String
  iso3 : Option String
  isoNum : Option String
  totalEndemicSpecies : Option String
  nearThreatenedEndemicSpecies : Option String
  vulnerableEndemicSpecies : Option String
  endangeredEndemicSpecies : Option String
  criticallyEndangeredEndemicSpecies : Option String
deriving DecidableEq

/-- The normalized endemic-table record stored per country. -/
structure EndemicRow where
  countryLabel : String
  iso3 : String
  isoNum : String
  totalEndemicSpecies : JSNum
  nearThreatenedEndemicSpecies : JSNum
  vulnerableEndemicSpecies : JSNum
  endangeredEndemicSpecies : JSNum
  criticallyEndangeredEndemicSpecies : JSNum
deriving DecidableEq

/-- One raw binding row of the GDP query result (`Q_GDP`). -/
structure GdpRaw where
  countryLabel : Option String
  iso3 : Option String
  isoNum : Option String
  gdpUSD : Option String
  gdpYear : Option String
deriving DecidableEq

/-- The normalized GDP-table record. -/
structure GdpRow where
  countryLabel : String
  iso3 : String
  isoNum : String
  gdpUSD : JSNum
  gdpYear : String
deriving DecidableEq

/-- One raw binding row of the population query result (`Q_POP`). -/
structure PopRaw where
  countryLabel : Option String
  iso3 : Option String
  isoNum : Option String
  population : Option String
  popYear : Option String
deriving DecidableEq

/-- The normalized population-table record. -/
structure PopRow where
  countryLabel : String
  iso3 : String
  isoNum : String
  population : JSNum
  popYear : String
deriving DecidableEq

/-- `const isoNumStr = r.isoNum?.value; const isoInt = isoNumStr ? parseInt(isoNumStr, 10) : NaN;`
followed by the `Number.isFinite` guard: the parsed key of a row, `none` when
the row lacks a parseable numeric key and is skipped. -/
def rawKey (isoNum : Option String) : Option Int :=
  match isoNum with
  | none => none
  | some s => if s = "" then none else parseIntJS s

/-- The record `buildEndemicMap` stores for a kept row. -/
def mkEndemicRow (r : EndemicRaw) : EndemicRow :=
  { countryLabel := r.countryLabel.getD ""
    iso3 := r.iso3.getD ""
    isoNum := r.isoNum.getD ""
    totalEndemicSpecies := jsPlusCoerce r.totalEndemicSpecies
    nearThreatenedEndemicSpecies := jsPlusCoerce r.nearThreatenedEndemicSpecies
    vulnerableEndemicSpecies := jsPlusCoerce r.vulnerableEndemicSpecies
    endangeredEndemicSpecies := jsPlusCoerce r.endangeredEndemicSpecies
    criticallyEndangeredEndemicSpecies := jsPlusCoerce r.criticallyEndangeredEndemicSpecies }

/-- `buildEndemicMap(json)`: fold over `json.results.bindings`, dropping rows
without a parseable numeric key and inserting the normalized record under the
parsed key. -/
def buildEndemicMap (rows : List EndemicRaw) : JsMap EndemicRow :=
  rows.foldl
    (fun m r =>
      match rawKey r.isoNum with
      | none => m
      | some k => mset m k (mkEndemicRow r))
    []

/-- The record `buildGdpMap` stores for a kept row. -/
def mkGdpRow (r : GdpRaw) : GdpRow :=
  { countryLabel := r.countryLabel.getD ""
    iso3 := r.iso3.getD ""
    isoNum := r.isoNum.getD ""
    gdpUSD := jsPlusCoerce r.gdpUSD
    gdpYear := r.gdpYear.getD "" }

/-- `buildGdpMap(json)`. -/
def buildGdpMap (rows : List GdpRaw) : JsMap GdpRow :=
  rows.foldl
    (fun m r =>
      match rawKey r.isoNum with
      | none => m
      | some k => mset m k (mkGdpRow r))
    []

/-- The record `buildPopulationMap` stores for a kept row. -/
def mkPopRow (r : PopRaw) : PopRow :=
  { countryLabel := r.countryLabel.getD ""
    iso3 := r.iso3.getD ""
    isoNum := r.isoNum.getD ""
    population := jsPlusCoerce r.population
    popYear := r.popYear.getD "" }

/-- `buildPopulationMap(json)`. -/
def buildPopulationMap (rows : List PopRaw) : JsMap PopRow :=
  rows.foldl
    (fun m r =>
      match rawKey r.isoNum with
      | none => m
      | some k => mset m k (mkPopRow r))
    []

/-- Lexicographic comparison of character lists by code point, modelling the
default JavaScript `Array.prototype.sort` string comparison. -/
def charLe : List Char → List Char → Bool
  | [], _ => true
  | _ :: _, [] => false
  | a :: as, b :: bs =>
    if a.toNat < b.toNat then true
    else if b.toNat < a.toNat then false
    else charLe as bs

/-- `charLe` is reflexive. -/
theorem charLe_refl : ∀ cs : List Char, charLe cs cs = true
  | [] => rfl
  | c :: cs => by simp [charLe, charLe_refl cs]

/-- `charLe` is total. -/
theorem charLe_total : ∀ as bs : List Char, charLe as bs = true ∨ charLe bs as = true
  | [], _ => Or.inl rfl
  | _ :: _, [] => Or.inr rfl
  | a :: as, b :: bs => by
    rcases Nat.lt_trichotomy a.toNat b.toNat with h | h | h
    · exact Or.inl (by simp [charLe, h])
    · rcases charLe_total as bs with ih | ih
      · exact Or.inl (by simp [charLe, h, ih])
      · exact Or.inr (by simp [charLe, h, ih])
    · exact Or.inr (by simp [charLe, h])

/-- `charLe` is transitive. -/
theorem charLe_trans :
    ∀ as bs cs : List Char, charLe as bs = true → charLe bs cs = true → charLe as cs = true
  | [], _, _, _, _ => rfl
  | _ :: _, [], _, h, _ => by simp [charLe] at h
  | _ :: _, _ :: _, [], _, h => by simp [charLe] at h
  | a :: as, b :: bs, c :: cs, h1, h2 => by
    rcases Nat.lt_trichotomy a.toNat b.toNat with hab | hab | hab
    · rcases Nat.lt_trichotomy b.toNat c.toNat with hbc | hbc | hbc
      · have hac : a.toNat < c.toNat := Nat.lt_trans hab hbc
        simp [charLe, hac]
      · have hac : a.toNat < c.toNat := hbc ▸ hab
        simp [charLe, hac]
      · exfalso
        simp [charLe, hbc, Nat.lt_asymm hbc] at h2
    · rcases Nat.lt_trichotomy b.toNat c.toNat with hbc | hbc | hbc
      · have hac : a.toNat < c.toNat := hab ▸ hbc
        simp [charLe, hac]
      · have hac : a.toNat = c.toNat := hab.trans hbc
        have h1' : charLe as bs = true := by
          simpa [charLe, hab] using h1
        have h2' : charLe bs cs = true := by
          simpa [charLe, hbc] using h2
        simp [charLe, hac, charLe_trans as bs cs h1' h2']
      · exfalso
        simp [charLe, hbc, Nat.lt_asymm hbc] at h2
    · exfalso
      simp [charLe, hab, Nat.lt_asymm hab] at h1

/-- String comparison used by the model of the default JS sort. -/
def strLeB (a b : String) : Bool := charLe a.toList b.toList

/-- The corresponding order relation on strings. -/
def strLe (a b : String) : Prop := strLeB a b = true

instance : DecidableRel strLe := fun _ _ => instDecidableEqBool _ _

instance : IsTotal String strLe := ⟨fun a b => charLe_total a.toList b.toList⟩

instance : IsTrans String strLe := ⟨fun _ _ _ h1 h2 => charLe_trans _ _ _ h1 h2⟩

/-- `strLe` is reflexive. -/
theorem strLe_refl (a : String) : strLe a a := charLe_refl a.toList

/-- `Array.from(set).sort()`: the set's elements sorted by the default string
comparison. -/
def sortJS (l : List String) : List String := List.insertionSort strLe l

/-- `formatYearNote(set)`: empty set gives the empty string, a singleton gives
a single-year note, otherwise a range note from the first and last element of
the sorted array. -/
def formatYearNote (years : List String) : String :=
  if years.length = 0 then ""
  else
    let arr := sortJS years
    if arr.length = 1 then "Latest year: " ++ arr.headD ""
    else "Latest years: " ++ arr.headD "" ++ "–" ++ arr.getLastD ""

/-- A country feature as used by `summarizeContinent` (only its id is read). -/
structure Feature where
  id : String
deriving DecidableEq

/-- `Map.get` on the continent-membership mapping. -/
def lookupAssoc {α : Type} (l : List (String × α)) (k : String) : Option α :=
  (l.find? (fun p => p.1 == k)).map (·.2)

/-- The accumulator record built by `summarizeContinent`. -/
structure ContinentSummary where
  totalCountries : Nat
  endemicCount : Nat
  gdpCount : Nat
  popCount : Nat
  totalEndemic : Int
  threatened : Int
  nt : Int
  vu : Int
  en : Int
  cr : Int
  gdpUSD : Int
  population : Int
  gdpYears : List String
  popYears : List String
  gdpYearNote : String
  popYearNote : String
  note : String
deriving DecidableEq

/-- The summary before the member loop runs. -/
def initialSummary (totalCountries : Nat) : ContinentSummary :=
  { totalCountries := totalCountries
    endemicCount := 0, gdpCount := 0, popCount := 0
    totalEndemic := 0, threatened := 0, nt := 0, vu := 0, en := 0, cr := 0
    gdpUSD := 0, population := 0
    gdpYears := [], popYears := []
    gdpYearNote := "", popYearNote := "", note := "" }

/-- `Set.add` on the year sets: insertion-ordered, duplicates ignored. -/
def setAdd (l : List String) (y : String) : List String :=
  if l.contains y then l else l ++ [y]

/-- The biodiversity branch of the member loop. -/
def endemicStep (endemicTable : Option (JsMap EndemicRow)) (s : ContinentSummary)
    (iso : Int) : ContinentSummary :=
  match endemicTable.bind (fun t => mget t iso) with
  | none => s
  | some eRow =>
    let nt := jsOrZero eRow.nearThreatenedEndemicSpecies
    let vu := jsOrZero eRow.vulnerableEndemicSpecies
    let en := jsOrZero eRow.endangeredEndemicSpecies
    let cr := jsOrZero eRow.criticallyEndangeredEndemicSpecies
    { s with endemicCount := s.endemicCount + 1
             totalEndemic := s.totalEndemic + jsOrZero eRow.totalEndemicSpecies
             nt := s.nt + nt
             vu := s.vu + vu
             en := s.en + en
             cr := s.cr + cr
             threatened := s.threatened + (nt + vu + en + cr) }

/-- The GDP branch of the member loop. -/
def gdpStep (gdpTable : Option (JsMap GdpRow)) (s : ContinentSummary)
    (iso : Int) : ContinentSummary :=
  match gdpTable.bind (fun t => mget t iso) with
  | none => s
  | some gRow =>
    { s with gdpCount := s.gdpCount + 1
             gdpUSD := s.gdpUSD + jsOrZero gRow.gdpUSD
             gdpYears := if gRow.gdpYear ≠ "" then setAdd s.gdpYears gRow.gdpYear else s.gdpYears }

/-- The population branch of the member loop. -/
def popStep (populationTable : Option (JsMap PopRow)) (s : ContinentSummary)
    (iso : Int) : ContinentSummary :=
  match populationTable.bind (fun t => mget t iso) with
  | none => s
  | some pRow =>
    { s with popCount := s.popCount + 1
             population := s.population + jsOrZero pRow.population
             popYears := if pRow.popYear ≠ "" then setAdd s.popYears pRow.popYear else s.popYears }

/-- One iteration of the `for (const iso of isoList)` loop. -/
def summarizeStep (e : Option (JsMap EndemicRow)) (g : Option (JsMap GdpRow))
    (p : Option (JsMap PopRow)) (s : ContinentSummary) (iso : Int) : ContinentSummary :=
  popStep p (gdpStep g (endemicStep e s iso) iso) iso

/-- `summarizeContinent(name)`, with the module-level membership mapping and
the three domain tables passed explicitly. -/
def summarizeContinent (countriesByContinent : List (String × List Feature))
    (endemicTable : Option (JsMap EndemicRow)) (gdpTable : Option (JsMap GdpRow))
    (populationTable : Option (JsMap PopRow)) (name : String) : ContinentSummary :=
  let list := (lookupAssoc countriesByContinent name).getD []
  let isoList := (list.map (fun c => parseIntJS c.id)).filterMap id
  let s := isoList.foldl (summarizeStep endemicTable gdpTable populationTable)
    (initialSummary list.length)
  { s with gdpYearNote := formatYearNote s.gdpYears
           popYearNote := formatYearNote s.popYears
           note :=
             if s.totalCountries ≠ 0 then
               "Aggregated from " ++ toString s.totalCountries ++ " countries (" ++
                 toString s.endemicCount ++ " with endemic data)."
             else "No linked countries found for this continent yet." }

/-- The member iso list `summarizeContinent` folds over. -/
def memberIsos (countriesByContinent : List (String × List Feature)) (name : String) :
    List Int :=
  ((((lookupAssoc countriesByContinent name).getD []).map (fun c => parseIntJS c.id)).filterMap id)

/-- Outcome reported by `hydrateCountryPanel` for one country selection:
early return on an unparseable feature id, unconditional failure statuses when
a preload failure was recorded, or the three independently probed sub-records
(`none` meaning the domain is absent and rendered as the `empty` status). -/
inductive PanelOutcome
  | notFinite
  | failed
  | results (e : Option EndemicRow) (g : Option GdpRow) (p : Option PopRow)
deriving DecidableEq

/-- The module-level mutable state owned by the data layer: the three lazily
populated tables (`null` before population) and the remembered preload
failure (`preloadError`, truthiness of the stored error object). -/
structure AppState where
  endemicTable : Option (JsMap EndemicRow)
  gdpTable : Option (JsMap GdpRow)
  populationTable : Option (JsMap PopRow)
  preloadError : Bool
deriving DecidableEq

/-- The state at session start. -/
def initialAppState : AppState :=
  { endemicTable := none, gdpTable := none, populationTable := none, preloadError := false }

/-- `hydrateCountryPanel(feature)` restricted to its data-layer effect:
parse the numeric id, report failure when `preloadError` is set, otherwise
probe each table independently. -/
def hydrateCountryPanel (s : AppState) (featureId : String) : PanelOutcome :=
  match parseIntJS featureId with
  | none => PanelOutcome.notFinite
  | some isoNumeric =>
    if s.preloadError then PanelOutcome.failed
    else
      PanelOutcome.results
        (s.endemicTable.bind (fun t => mget t isoNumeric))
        (s.gdpTable.bind (fun t => mget t isoNumeric))
        (s.populationTable.bind (fun t => mget t isoNumeric))

/-- One of the three metric domains. -/
inductive Domain
  | endemic
  | gdp
  | pop
deriving DecidableEq

/-- Whether a preload run returned normally or threw. -/
inductive LoadResult
  | ok
  | failed
deriving DecidableEq

/-- The behavior of the network during one preload run: for each domain query,
`some rows` when its `runSparqlGETWithRetry` call resolves with these binding
rows, `none` when that call ultimately throws. -/
structure NetEnv where
  endemic : Option (List EndemicRaw)
  gdp : Option (List GdpRaw)
  pop : Option (List PopRaw)

/-- `preloadAllTables()`: the three domain queries are awaited one after the
other; each table is assigned as soon as its own query resolves, and a throw
aborts the rest of the function.  Returns the new state, whether the run threw,
and the list of domain queries actually issued, in order. -/
def preloadAllTables (env : NetEnv) (s : AppState) : AppState × LoadResult × List Domain :=
  match env.endemic with
  | none => (s, LoadResult.failed, [Domain.endemic])
  | some endRows =>
    let s1 := { s with endemicTable := some (buildEndemicMap endRows) }
    match env.gdp with
    | none => (s1, LoadResult.failed, [Domain.endemic, Domain.gdp])
    | some gdpRows =>
      let s2 := { s1 with gdpTable := some (buildGdpMap gdpRows) }
      match env.pop with
      | none => (s2, LoadResult.failed, [Domain.endemic, Domain.gdp, Domain.pop])
      | some popRows =>
        ({ s2 with populationTable := some (buildPopulationMap popRows) },
          LoadResult.ok, [Domain.endemic, Domain.gdp, Domain.pop])

/-- `ensureDataReady()`: return immediately when all three tables are already
populated; otherwise run the preload, recording a thrown error in
`preloadError` before rethrowing. -/
def ensureDataReady (env : NetEnv) (s : AppState) : AppState × LoadResult × List Domain :=
  if s.endemicTable.isSome ∧ s.gdpTable.isSome ∧ s.populationTable.isSome then
    (s, LoadResult.ok, [])
  else
    match preloadAllTables env s with
    | (s', LoadResult.ok, ds) => (s', LoadResult.ok, ds)
    | (s', LoadResult.failed, ds) => ({ s' with preloadError := true }, LoadResult.failed, ds)

/-- What one `fetch` attempt inside `runSparqlGETWithRetry` does.  `hang`
records that the promise never settles: the source races the request against
nothing (no `AbortController`, no timer), so the `await` then suspends the
call forever. -/
inductive FetchOutcome
  | ok
  | http (status : Nat)
  | netErr
  | hang
deriving DecidableEq

/-- How a `runSparqlGETWithRetry` call ends. -/
inductive RunOutcome
  | success
  | failure (msg : String)
  | neverResolves
  | outOfFuel
deriving DecidableEq

/-- Observable trace of a `runSparqlGETWithRetry` call: its outcome, the
number of `fetch` calls issued, and the waits inserted between attempts. -/
structure RunTrace where
  outcome : RunOutcome
  fetchCalls : Nat
  waits : List ℚ
deriving DecidableEq

/-- The retryable status test `res.status === 429 || res.status === 403 || res.status === 503`. -/
def retryableStatus (s : Nat) : Bool :=
  s == 429 || s == 403 || s == 503

/-- `delayWithJitter(base, attempt)`: the wait duration
`Math.min(800, base * attempt) + Math.random() * 400`, with the random draw
`rand ∈ [0, 1)` passed explicitly. -/
def delayWithJitter (base : ℚ) (attempt : Nat) (rand : ℚ) : ℚ :=
  min 800 (base * (attempt : ℚ)) + rand * 400

/-- The `while (true)` loop of `runSparqlGETWithRetry`.  `outcomes n` is the
behavior of the `n`-th `fetch` call (0-based), `rands n` the random draw used
by the `n`-th retry delay (1-based, matching the incremented `attempt`).
The fuel argument only bounds the recursion; `retries + 1` is always enough
because `attempt` grows by one per iteration and is capped by `retries`. -/
def runRetryLoop (outcomes : Nat → FetchOutcome) (rands : Nat → ℚ) (retries : Nat)
    (baseDelayMs : ℚ) : Nat → Nat → Nat → List ℚ → RunTrace
  | 0, _, calls, waits =>
    { outcome := RunOutcome.outOfFuel, fetchCalls := calls, waits := waits.reverse }
  | fuel + 1, attempt, calls, waits =>
    match outcomes calls with
    | FetchOutcome.ok =>
      { outcome := RunOutcome.success, fetchCalls := calls + 1, waits := waits.reverse }
    | FetchOutcome.hang =>
      { outcome := RunOutcome.neverResolves, fetchCalls := calls + 1, waits := waits.reverse }
    | FetchOutcome.http status =>
      if retryableStatus status ∧ attempt < retries then
        runRetryLoop outcomes rands retries baseDelayMs fuel (attempt + 1) (calls + 1)
          (delayWithJitter baseDelayMs (attempt + 1) (rands (attempt + 1)) :: waits)
      else
        -- the `throw new Error('QLever error ...')` lands in the function's own
        -- `catch`, which retries while budget remains
        if attempt < retries then
          runRetryLoop outcomes rands retries baseDelayMs fuel (attempt + 1) (calls + 1)
            (delayWithJitter baseDelayMs (attempt + 1) (rands (attempt + 1)) :: waits)
        else
          { outcome := RunOutcome.failure ("QLever error " ++ toString status)
            fetchCalls := calls + 1, waits := waits.reverse }
    | FetchOutcome.netErr =>
      if attempt < retries then
        runRetryLoop outcomes rands retries baseDelayMs fuel (attempt + 1) (calls + 1)
          (delayWithJitter baseDelayMs (attempt + 1) (rands (attempt + 1)) :: waits)
      else
        { outcome := RunOutcome.failure "network error", fetchCalls := calls + 1
          waits := waits.reverse }

/-- `runSparqlGETWithRetry(query, { retries, baseDelayMs })` as a function of
the network behavior and the random draws. -/
def runSparqlGETWithRetry (outcomes : Nat → FetchOutcome) (rands : Nat → ℚ)
    (retries : Nat) (baseDelayMs : ℚ) : RunTrace :=
  runRetryLoop outcomes rands retries baseDelayMs (retries + 1) 0 0 []

/-- Keys after a `Map.set`: the old keys, plus the new key when it was absent. -/
theorem mem_keysOf_mset {α : Type} (m : JsMap α) (k : Int) (v : α) (a : Int) :
    a ∈ keysOf (mset m k v) ↔ a ∈ keysOf m ∨ a = k := by
  unfold mset keysOf
  by_cases h : m.any (fun p => p.1 == k)
  · simp only [h, if_true, List.map_map]
    have hmap : m.map ((·.1) ∘ fun p => if p.1 == k then (k, v) else p) = m.map (·.1) := by
      apply List.map_congr_left
      intro p _
      by_cases hp : p.1 == k
      · have hpk : p.1 = k := by simpa using hp
        simp [hp, hpk]
      · have hpk : ¬ p.1 = k := by simpa using hp
        simp [hp, hpk]
    rw [hmap]
    have hk : k ∈ m.map (·.1) := by
      rcases List.any_eq_true.mp h with ⟨p, hp, hpk⟩
      have hpk2 : p.1 = k := by simpa using hpk
      exact hpk2 ▸ List.mem_map_of_mem _ hp
    constructor
    · exact fun ha => Or.inl ha
    · rintro (ha | rfl)
      · exact ha
      · exact hk
  · simp [h]

/-- `Map.set` grows the map by at most one entry. -/
theorem length_mset_le {α : Type} (m : JsMap α) (k : Int) (v : α) :
    (mset m k v).length ≤ m.length + 1 := by
  unfold mset
  split
  · simp
  · simp

/-- A key is gettable exactly when it is among the map's keys. -/
theorem mget_isSome_iff {α : Type} (m : JsMap α) (k : Int) :
    (mget m k).isSome ↔ k ∈ keysOf m := by
  unfold mget keysOf
  induction m with
  | nil => simp
  | cons p t ih =>
    by_cases h : p.1 == k
    · have hpk : p.1 = k := by simpa using h
      simp [List.find?_cons, h, hpk]
    · have hpk : ¬ p.1 = k := by simpa using h
      simp [List.find?_cons, h, ih]
      exact fun hkp => absurd hkp.symm hpk

/-- Key membership for the shared fold shape of the three table builders. -/
theorem mem_keysOf_buildFold {ρ α : Type} (key : ρ → Option Int) (mk : ρ → α) :
    ∀ (rows : List ρ) (m : JsMap α) (a : Int),
      a ∈ keysOf (rows.foldl
          (fun m r => match key r with | none => m | some k => mset m k (mk r)) m) ↔
        a ∈ keysOf m ∨ ∃ r ∈ rows, key r = some a
  | [], m, a => by simp
  | r :: rest, m, a => by
    rw [List.foldl_cons]
    rcases hk : key r with _ | k
    · dsimp only
      rw [mem_keysOf_buildFold key mk rest m a]
      simp [hk]
    · dsimp only
      rw [mem_keysOf_buildFold key mk rest (mset m k (mk r)) a, mem_keysOf_mset]
      constructor
      · rintro ((ha | rfl) | ⟨r2, hr2, hr2k⟩)
        · exact Or.inl ha
        · exact Or.inr ⟨r, List.mem_cons_self r rest, hk⟩
        · exact Or.inr ⟨r2, List.mem_cons_of_mem r hr2, hr2k⟩
      · rintro (ha | ⟨r2, hr2, hr2k⟩)
        · exact Or.inl (Or.inl ha)
        · rcases List.mem_cons.mp hr2 with rfl | hr2
          · have hka : k = a := Option.some.inj (hk.symm.trans hr2k)
            exact Or.inl (Or.inr hka.symm)
          · exact Or.inr ⟨r2, hr2, hr2k⟩

/-- Size bound for the shared fold shape of the three table builders. -/
theorem length_buildFold_le {ρ α : Type} (key : ρ → Option Int) (mk : ρ → α) :
    ∀ (rows : List ρ) (m : JsMap α),
      (rows.foldl
          (fun m r => match key r with | none => m | some k => mset m k (mk r)) m).length ≤
        m.length + rows.length
  | [], m => by simp
  | r :: rest, m => by
    rw [List.foldl_cons]
    rcases hk : key r with _ | k
    · dsimp only
      have h1 := length_buildFold_le key mk rest m
      simp only [List.length_cons]
      omega
    · dsimp only
      have h1 := length_buildFold_le key mk rest (mset m k (mk r))
      have h2 := length_mset_le m k (mk r)
      simp only [List.length_cons]
      omega

/-- Spec-side presence count: how many member entities have a record in the
table. -/
def presentCountSpec {α : Type} (t : Option (JsMap α)) (isos : List Int) : Nat :=
  (isos.filter (fun i => (t.bind (fun m => mget m i)).isSome)).length

/-- Spec-side running sum of one numeric field over the member entities
present in the endemic table (absent members contribute nothing). -/
def endemicFieldSum (f : EndemicRow → JSNum) (t : Option (JsMap EndemicRow))
    (isos : List Int) : Int :=
  (isos.map (fun i =>
    match t.bind (fun m => mget m i) with
    | some r => jsOrZero (f r)
    | none => 0)).sum

/-- Spec-side derived threatened sum: per present member, the arithmetic sum
of the four threat tiers. -/
def threatenedSumSpec (t : Option (JsMap EndemicRow)) (isos : List Int) : Int :=
  (isos.map (fun i =>
    match t.bind (fun m => mget m i) with
    | some r =>
        jsOrZero r.nearThreatenedEndemicSpecies + jsOrZero r.vulnerableEndemicSpecies +
          jsOrZero r.endangeredEndemicSpecies + jsOrZero r.criticallyEndangeredEndemicSpecies
    | none => 0)).sum

theorem gdpStep_endemic_fields (g : Option (JsMap GdpRow)) (s : ContinentSummary) (iso : Int) :
    (gdpStep g s iso).endemicCount = s.endemicCount ∧
    (gdpStep g s iso).totalEndemic = s.totalEndemic ∧
    (gdpStep g s iso).nt = s.nt ∧
    (gdpStep g s iso).vu = s.vu ∧
    (gdpStep g s iso).en = s.en ∧
    (gdpStep g s iso).cr = s.cr ∧
    (gdpStep g s iso).threatened = s.threatened := by
  rcases hg : g.bind (fun t => mget t iso) with _ | r <;> simp [gdpStep, hg]

theorem popStep_endemic_fields (p : Option (JsMap PopRow)) (s : ContinentSummary) (iso : Int) :
    (popStep p s iso).endemicCount = s.endemicCount ∧
    (popStep p s iso).totalEndemic = s.totalEndemic ∧
    (popStep p s iso).nt = s.nt ∧
    (popStep p s iso).vu = s.vu ∧
    (popStep p s iso).en = s.en ∧
    (popStep p s iso).cr = s.cr ∧
    (popStep p s iso).threatened = s.threatened := by
  rcases hp : p.bind (fun t => mget t iso) with _ | r <;> simp [popStep, hp]

theorem endemicStep_fields (e : Option (JsMap EndemicRow)) (s : ContinentSummary) (iso : Int) :
    (endemicStep e s iso).endemicCount =
      s.endemicCount + (if (e.bind (fun t => mget t iso)).isSome then 1 else 0) ∧
    (endemicStep e s iso).totalEndemic =
      s.totalEndemic + (match e.bind (fun t => mget t iso) with
        | some r => jsOrZero r.totalEndemicSpecies
        | none => 0) ∧
    (endemicStep e s iso).nt =
      s.nt + (match e.bind (fun t => mget t iso) with
        | some r => jsOrZero r.nearThreatenedEndemicSpecies
        | none => 0) ∧
    (endemicStep e s iso).vu =
      s.vu + (match e.bind (fun t => mget t iso) with
        | some r => jsOrZero r.vulnerableEndemicSpecies
        | none => 0) ∧
    (endemicStep e s iso).en =
      s.en + (match e.bind (fun t => mget t iso) with
        | some r => jsOrZero r.endangeredEndemicSpecies
        | none => 0) ∧
    (endemicStep e s iso).cr =
      s.cr + (match e.bind (fun t => mget t iso) with
        | some r => jsOrZero r.criticallyEndangeredEndemicSpecies
        | none => 0) ∧
    (endemicStep e s iso).threatened =
      s.threatened + (match e.bind (fun t => mget t iso) with
        | some r =>
            jsOrZero r.nearThreatenedEndemicSpecies + jsOrZero r.vulnerableEndemicSpecies +
              jsOrZero r.endangeredEndemicSpecies + jsOrZero r.criticallyEndangeredEndemicSpecies
        | none => 0) := by
  rcases he : e.bind (fun t => mget t iso) with _ | r <;> simp [endemicStep, he]

/-- The member loop accumulates exactly the spec-side folds on the
biodiversity side, whatever summary it starts from. -/
theorem summarize_loop_endemic (e : Option (JsMap EndemicRow)) (g : Option (JsMap GdpRow))
    (p : Option (JsMap PopRow)) :
    ∀ (isos : List Int) (s : ContinentSummary),
      (isos.foldl (summarizeStep e g p) s).endemicCount =
          s.endemicCount + presentCountSpec e isos ∧
      (isos.foldl (summarizeStep e g p) s).totalEndemic =
          s.totalEndemic + endemicFieldSum (fun r => r.totalEndemicSpecies) e isos ∧
      (isos.foldl (summarizeStep e g p) s).nt =
          s.nt + endemicFieldSum (fun r => r.nearThreatenedEndemicSpecies) e isos ∧
      (isos.foldl (summarizeStep e g p) s).vu =
          s.vu + endemicFieldSum (fun r => r.vulnerableEndemicSpecies) e isos ∧
      (isos.foldl (summarizeStep e g p) s).en =
          s.en + endemicFieldSum (fun r => r.endangeredEndemicSpecies) e isos ∧
      (isos.foldl (summarizeStep e g p) s).cr =
          s.cr + endemicFieldSum (fun r => r.criticallyEndangeredEndemicSpecies) e isos ∧
      (isos.foldl (summarizeStep e g p) s).threatened =
          s.threatened + threatenedSumSpec e isos
  | [], s => by
    simp [presentCountSpec, endemicFieldSum, threatenedSumSpec]
  | i :: rest, s => by
    rw [List.foldl_cons]
    have ih := summarize_loop_endemic e g p rest (summarizeStep e g p s i)
    have hstep : ∀ q : ContinentSummary,
        (summarizeStep e g p q i).endemicCount = (endemicStep e q i).endemicCount ∧
        (summarizeStep e g p q i).totalEndemic = (endemicStep e q i).totalEndemic ∧
        (summarizeStep e g p q i).nt = (endemicStep e q i).nt ∧
        (summarizeStep e g p q i).vu = (endemicStep e q i).vu ∧
        (summarizeStep e g p q i).en = (endemicStep e q i).en ∧
        (summarizeStep e g p q i).cr = (endemicStep e q i).cr ∧
        (summarizeStep e g p q i).threatened = (endemicStep e q i).threatened := by
      intro q
      have hg := gdpStep_endemic_fields g (endemicStep e q i) i
      have hp := popStep_endemic_fields p (gdpStep g (endemicStep e q i) i) i
      unfold summarizeStep
      exact ⟨hp.1.trans hg.1, (hp.2.1).trans hg.2.1, (hp.2.2.1).trans hg.2.2.1,
        (hp.2.2.2.1).trans hg.2.2.2.1, (hp.2.2.2.2.1).trans hg.2.2.2.2.1,
        (hp.2.2.2.2.2.1).trans hg.2.2.2.2.2.1, (hp.2.2.2.2.2.2).trans hg.2.2.2.2.2.2⟩
    have he := endemicStep_fields e s i
    have hpc : presentCountSpec e (i :: rest) =
        (if (e.bind (fun t => mget t i)).isSome then 1 else 0) + presentCountSpec e rest := by
      simp only [presentCountSpec, List.filter_cons]
      by_cases hb : (e.bind (fun t => mget t i)).isSome <;> simp [hb] <;> omega
    have hfs : ∀ f : EndemicRow → JSNum, endemicFieldSum f e (i :: rest) =
        (match e.bind (fun t => mget t i) with
          | some r => jsOrZero (f r)
          | none => 0) + endemicFieldSum f e rest := by
      intro f
      simp [endemicFieldSum]
    have hts : threatenedSumSpec e (i :: rest) =
        (match e.bind (fun t => mget t i) with
          | some r =>
              jsOrZero r.nearThreatenedEndemicSpecies + jsOrZero r.vulnerableEndemicSpecies +
                jsOrZero r.endangeredEndemicSpecies + jsOrZero r.criticallyEndangeredEndemicSpecies
          | none => 0) + threatenedSumSpec e rest := by
      simp [threatenedSumSpec]
    refine ⟨?_, ?_, ?_, ?_, ?_, ?_, ?_⟩
    · have h1 := ih.1
      have h2 := (hstep s).1
      have h3 := he.1
      rw [hpc]
      omega
    · have h1 := ih.2.1
      have h2 := (hstep s).2.1
      have h3 := he.2.1
      rw [hfs (fun r => r.totalEndemicSpecies)]
      omega
    · have h1 := ih.2.2.1
      have h2 := (hstep s).2.2.1
      have h3 := he.2.2.1
      rw [hfs (fun r => r.nearThreatenedEndemicSpecies)]
      omega
    · have h1 := ih.2.2.2.1
      have h2 := (hstep s).2.2.2.1
      have h3 := he.2.2.2.1
      rw [hfs (fun r => r.vulnerableEndemicSpecies)]
      omega
    · have h1 := ih.2.2.2.2.1
      have h2 := (hstep s).2.2.2.2.1
      have h3 := he.2.2.2.2.1
      rw [hfs (fun r => r.endangeredEndemicSpecies)]
      omega
    · have h1 := ih.2.2.2.2.2.1
      have h2 := (hstep s).2.2.2.2.2.1
      have h3 := he.2.2.2.2.2.1
      rw [hfs (fun r => r.criticallyEndangeredEndemicSpecies)]
      omega
    · have h1 := ih.2.2.2.2.2.2
      have h2 := (hstep s).2.2.2.2.2.2
      have h3 := he.2.2.2.2.2.2
      rw [hts]
      omega

/-- `threatenedSumSpec` is the sum of the four per-tier sums. -/
theorem threatenedSumSpec_eq (e : Option (JsMap EndemicRow)) (isos : List Int) :
    threatenedSumSpec e isos =
      endemicFieldSum (fun r => r.nearThreatenedEndemicSpecies) e isos +
        endemicFieldSum (fun r => r.vulnerableEndemicSpecies) e isos +
        endemicFieldSum (fun r => r.endangeredEndemicSpecies) e isos +
        endemicFieldSum (fun r => r.criticallyEndangeredEndemicSpecies) e isos := by
  induction isos with
  | nil => simp [threatenedSumSpec, endemicFieldSum]
  | cons i rest ih =>
    rcases hi : e.bind (fun m => mget m i) with _ | r
    · simp [threatenedSumSpec, endemicFieldSum, hi] at ih ⊢
      omega
    · simp [threatenedSumSpec, endemicFieldSum, hi] at ih ⊢
      rw [ih]
      ring

/-- The default of `getLastD` is irrelevant for a nonempty list: the result is
a member. -/
theorem getLastD_mem_of_ne_nil :
    ∀ (l : List String) (d : String), l ≠ [] → l.getLastD d ∈ l
  | [], _, h => absurd rfl h
  | b :: t, d, _ => by
    rw [List.getLastD_cons]
    exact List.getLastD_mem_cons t b

/-- In a `strLe`-sorted list every element is bounded by the last element. -/
theorem sorted_le_getLastD :
    ∀ (l : List String) (d : String), List.Sorted strLe l → ∀ x ∈ l, strLe x (l.getLastD d)
  | [], _, _, x, hx => absurd hx (List.not_mem_nil x)
  | [a], _, _, x, hx => by
    rcases List.mem_singleton.mp hx with rfl
    exact strLe_refl x
  | a :: b :: t, d, hs, x, hx => by
    rw [List.getLastD_cons]
    rcases List.mem_cons.mp hx with rfl | hx2
    · have hmem : (b :: t).getLastD x ∈ b :: t := getLastD_mem_of_ne_nil _ _ (by simp)
      exact (List.sorted_cons.mp hs).1 _ hmem
    · exact sorted_le_getLastD (b :: t) a (List.sorted_cons.mp hs).2 x hx2

/-- In a `strLe`-sorted list every element is bounded below by the head. -/
theorem sorted_headD_le (l : List String) (hs : List.Sorted strLe l) :
    ∀ x ∈ l, strLe (l.headD "") x := by
  cases l with
  | nil => intro x hx; exact absurd hx (List.not_mem_nil x)
  | cons a t =>
    intro x hx
    rcases List.mem_cons.mp hx with rfl | hx2
    · exact strLe_refl x
    · exact (List.sorted_cons.mp hs).1 x hx2

/-- The head of a nonempty list is a member, whatever the default. -/
theorem headD_mem_of_ne_nil : ∀ (l : List String), l ≠ [] → l.headD "" ∈ l
  | [], h => absurd rfl h
  | a :: t, _ => by simp

/-- C1 scenario: one group of three entities with string ids 1, 2, 3. -/
def groupScenarioMembership : List (String × List Feature) :=
  [("G", [{ id := "1" }, { id := "2" }, { id := "3" }])]

/-- C1 scenario: entity A, total 10, tiers nt=1 vu=2 en=0 cr=0. -/
def groupScenarioRowA : EndemicRow :=
  { countryLabel := "A", iso3 := "", isoNum := "1"
    totalEndemicSpecies := some 10
    nearThreatenedEndemicSpecies := some 1
    vulnerableEndemicSpecies := some 2
    endangeredEndemicSpecies := some 0
    criticallyEndangeredEndemicSpecies := some 0 }

/-- C1 scenario: entity C, total 5, tiers nt=0 vu=0 en=1 cr=1. -/
def groupScenarioRowC : EndemicRow :=
  { countryLabel := "C", iso3 := "", isoNum := "3"
    totalEndemicSpecies := some 5
    nearThreatenedEndemicSpecies := some 0
    vulnerableEndemicSpecies := some 0
    endangeredEndemicSpecies := some 1
    criticallyEndangeredEndemicSpecies := some 1 }

/-- C1 scenario: biodiversity table holding A and C; B (id 2) is absent. -/
def groupScenarioEndemic : JsMap EndemicRow :=
  [(1, groupScenarioRowA), (3, groupScenarioRowC)]

/-- C1: `summarizeContinent` folds exactly the group's member entities: the
biodiversity presence counter counts the members present in the endemic
table, the total and the four tier fields are the running sums over present
members, and the derived threatened sum is the arithmetic sum of the four
tiers; on the 3-entity scenario (A: total 10, nt 1, vu 2; B absent; C:
total 5, en 1, cr 1) it reports presence 2, total 15, threatened 5. -/
theorem summarizeContinent_folds_group_members :
    (∀ (countriesByContinent : List (String × List Feature)) (e : Option (JsMap EndemicRow))
        (g : Option (JsMap GdpRow)) (p : Option (JsMap PopRow)) (name : String),
      (summarizeContinent countriesByContinent e g p name).endemicCount =
          presentCountSpec e (memberIsos countriesByContinent name) ∧
      (summarizeContinent countriesByContinent e g p name).totalEndemic =
          endemicFieldSum (fun r => r.totalEndemicSpecies) e
            (memberIsos countriesByContinent name) ∧
      (summarizeContinent countriesByContinent e g p name).nt =
          endemicFieldSum (fun r => r.nearThreatenedEndemicSpecies) e
            (memberIsos countriesByContinent name) ∧
      (summarizeContinent countriesByContinent e g p name).vu =
          endemicFieldSum (fun r => r.vulnerableEndemicSpecies) e
            (memberIsos countriesByContinent name) ∧
      (summarizeContinent countriesByContinent e g p name).en =
          endemicFieldSum (fun r => r.endangeredEndemicSpecies) e
            (memberIsos countriesByContinent name) ∧
      (summarizeContinent countriesByContinent e g p name).cr =
          endemicFieldSum (fun r => r.criticallyEndangeredEndemicSpecies) e
            (memberIsos countriesByContinent name) ∧
      (summarizeContinent countriesByContinent e g p name).threatened =
          threatenedSumSpec e (memberIsos countriesByContinent name) ∧
      (summarizeContinent countriesByContinent e g p name).threatened =
          (summarizeContinent countriesByContinent e g p name).nt +
            (summarizeContinent countriesByContinent e g p name).vu +
            (summarizeContinent countriesByContinent e g p name).en +
            (summarizeContinent countriesByContinent e g p name).cr) ∧
    ((summarizeContinent groupScenarioMembership (some groupScenarioEndemic) none none
        "G").endemicCount = 2 ∧
      (summarizeContinent groupScenarioMembership (some groupScenarioEndemic) none none
        "G").totalEndemic = 15 ∧
      (summarizeContinent groupScenarioMembership (some groupScenarioEndemic) none none
        "G").threatened = 5) := by
  constructor
  · intro cbc e g p name
    have hl := summarize_loop_endemic e g p (memberIsos cbc name)
      (initialSummary ((lookupAssoc cbc name).getD []).length)
    have hproj :
        (summarizeContinent cbc e g p name).endemicCount =
            ((memberIsos cbc name).foldl (summarizeStep e g p)
              (initialSummary ((lookupAssoc cbc name).getD []).length)).endemicCount ∧
        (summarizeContinent cbc e g p name).totalEndemic =
            ((memberIsos cbc name).foldl (summarizeStep e g p)
              (initialSummary ((lookupAssoc cbc name).getD []).length)).totalEndemic ∧
        (summarizeContinent cbc e g p name).nt =
            ((memberIsos cbc name).foldl (summarizeStep e g p)
              (initialSummary ((lookupAssoc cbc name).getD []).length)).nt ∧
        (summarizeContinent cbc e g p name).vu =
            ((memberIsos cbc name).foldl (summarizeStep e g p)
              (initialSummary ((lookupAssoc cbc name).getD []).length)).vu ∧
        (summarizeContinent cbc e g p name).en =
            ((memberIsos cbc name).foldl (summarizeStep e g p)
              (initialSummary ((lookupAssoc cbc name).getD []).length)).en ∧
        (summarizeContinent cbc e g p name).cr =
            ((memberIsos cbc name).foldl (summarizeStep e g p)
              (initialSummary ((lookupAssoc cbc name).getD []).length)).cr ∧
        (summarizeContinent cbc e g p name).threatened =
            ((memberIsos cbc name).foldl (summarizeStep e g p)
              (initialSummary ((lookupAssoc cbc name).getD []).length)).threatened := by
      unfold summarizeContinent memberIsos
      simp
    have hinit :
        (initialSummary ((lookupAssoc cbc name).getD []).length).endemicCount = 0 ∧
        (initialSummary ((lookupAssoc cbc name).getD []).length).totalEndemic = 0 ∧
        (initialSummary ((lookupAssoc cbc name).getD []).length).nt = 0 ∧
        (initialSummary ((lookupAssoc cbc name).getD []).length).vu = 0 ∧
        (initialSummary ((lookupAssoc cbc name).getD []).length).en = 0 ∧
        (initialSummary ((lookupAssoc cbc name).getD []).length).cr = 0 ∧
        (initialSummary ((lookupAssoc cbc name).getD []).length).threatened = 0 := by
      simp [initialSummary]
    refine ⟨?_, ?_, ?_, ?_, ?_, ?_, ?_, ?_⟩
    · rw [hproj.1, hl.1, hinit.1]; omega
    · rw [hproj.2.1, hl.2.1, hinit.2.1]; omega
    · rw [hproj.2.2.1, hl.2.2.1, hinit.2.2.1]; omega
    · rw [hproj.2.2.2.1, hl.2.2.2.1, hinit.2.2.2.1]; omega
    · rw [hproj.2.2.2.2.1, hl.2.2.2.2.1, hinit.2.2.2.2.1]; omega
    · rw [hproj.2.2.2.2.2.1, hl.2.2.2.2.2.1, hinit.2.2.2.2.2.1]; omega
    · rw [hproj.2.2.2.2.2.2, hl.2.2.2.2.2.2, hinit.2.2.2.2.2.2]; omega
    · rw [hproj.2.2.2.2.2.2, hl.2.2.2.2.2.2, hinit.2.2.2.2.2.2,
        hproj.2.2.1, hl.2.2.1, hinit.2.2.1,
        hproj.2.2.2.1, hl.2.2.2.1, hinit.2.2.2.1,
        hproj.2.2.2.2.1, hl.2.2.2.2.1, hinit.2.2.2.2.1,
        hproj.2.2.2.2.2.1, hl.2.2.2.2.2.1, hinit.2.2.2.2.2.1,
        threatenedSumSpec_eq]
      omega
  · refine ⟨by decide, by decide, by decide⟩

/-- C2 scenario: the well-formed raw biodiversity row with key string 76. -/
def rawRow76 : EndemicRaw :=
  { countryLabel := none, iso3 := none, isoNum := some "76"
    totalEndemicSpecies := some "120"
    nearThreatenedEndemicSpecies := none
    vulnerableEndemicSpecies := none
    endangeredEndemicSpecies := none
    criticallyEndangeredEndemicSpecies := some "5" }

/-- C2 scenario: the raw row whose key string is not numeric. -/
def rawRowBadKey : EndemicRaw :=
  { countryLabel := none, iso3 := none, isoNum := some "abc"
    totalEndemicSpecies := some "9"
    nearThreatenedEndemicSpecies := none
    vulnerableEndemicSpecies := none
    endangeredEndemicSpecies := none
    criticallyEndangeredEndemicSpecies := none }

/-- C2: for each of the three table builders, the key set of the built table
is exactly the set of parsed numeric keys of the input rows that carry a
parseable key; the table never exceeds the input row count; and on the
two-row scenario (`isoNum "76"` versus `isoNum "abc"`) exactly one entry is
built, keyed 76, with total 120, cr 5 and the other tiers zero. -/
theorem buildTables_key_set_exact :
    (∀ (rows : List EndemicRaw) (k : Int),
        k ∈ keysOf (buildEndemicMap rows) ↔ ∃ r ∈ rows, rawKey r.isoNum = some k) ∧
    (∀ (rows : List GdpRaw) (k : Int),
        k ∈ keysOf (buildGdpMap rows) ↔ ∃ r ∈ rows, rawKey r.isoNum = some k) ∧
    (∀ (rows : List PopRaw) (k : Int),
        k ∈ keysOf (buildPopulationMap rows) ↔ ∃ r ∈ rows, rawKey r.isoNum = some k) ∧
    (∀ rows : List EndemicRaw, (buildEndemicMap rows).length ≤ rows.length) ∧
    (∀ rows : List GdpRaw, (buildGdpMap rows).length ≤ rows.length) ∧
    (∀ rows : List PopRaw, (buildPopulationMap rows).length ≤ rows.length) ∧
    buildEndemicMap [rawRow76, rawRowBadKey] = [(76, mkEndemicRow rawRow76)] ∧
    (mkEndemicRow rawRow76).totalEndemicSpecies = some 120 ∧
    (mkEndemicRow rawRow76).criticallyEndangeredEndemicSpecies = some 5 ∧
    (mkEndemicRow rawRow76).nearThreatenedEndemicSpecies = some 0 ∧
    (mkEndemicRow rawRow76).vulnerableEndemicSpecies = some 0 ∧
    (mkEndemicRow rawRow76).endangeredEndemicSpecies = some 0 := by
  refine ⟨?_, ?_, ?_, ?_, ?_, ?_, by decide, by decide, by decide, by decide, by decide,
    by decide⟩
  · intro rows k
    have h := mem_keysOf_buildFold (fun r : EndemicRaw => rawKey r.isoNum) mkEndemicRow rows [] k
    simpa [buildEndemicMap, keysOf] using h
  · intro rows k
    have h := mem_keysOf_buildFold (fun r : GdpRaw => rawKey r.isoNum) mkGdpRow rows [] k
    simpa [buildGdpMap, keysOf] using h
  · intro rows k
    have h := mem_keysOf_buildFold (fun r : PopRaw => rawKey r.isoNum) mkPopRow rows [] k
    simpa [buildPopulationMap, keysOf] using h
  · intro rows
    have h := length_buildFold_le (fun r : EndemicRaw => rawKey r.isoNum) mkEndemicRow rows []
    simpa [buildEndemicMap] using h
  · intro rows
    have h := length_buildFold_le (fun r : GdpRaw => rawKey r.isoNum) mkGdpRow rows []
    simpa [buildGdpMap] using h
  · intro rows
    have h := length_buildFold_le (fun r : PopRaw => rawKey r.isoNum) mkPopRow rows []
    simpa [buildPopulationMap] using h

/-- C3 data: a raw row with a valid key whose total and all four threat tiers
are absent, hence coerced to zero. -/
def allZeroRow7 : EndemicRaw :=
  { countryLabel := none, iso3 := none, isoNum := some "7"
    totalEndemicSpecies := none
    nearThreatenedEndemicSpecies := none
    vulnerableEndemicSpecies := none
    endangeredEndemicSpecies := none
    criticallyEndangeredEndemicSpecies := none }

/-- C3 data: a session state whose tables are loaded and whose endemic table
holds only the all-zero record for key 7. -/
def zeroAbsentState : AppState :=
  { endemicTable := some (buildEndemicMap [allZeroRow7])
    gdpTable := some []
    populationTable := some []
    preloadError := false }

/-- C3 (amended): missing numeric sub-fields and empty-string values default
to zero and absent string fields become empty strings (a non-empty
unparseable numeric value, however, coerces to NaN, not zero — see the
counterexample); a row with a valid key and no numeric values at all yields a
present all-zero record; a key with no row is reported absent by the
independent per-table probes of `hydrateCountryPanel`; and the all-zero
present record is distinguishable from absence. -/
theorem zero_vs_absent_distinction :
    jsPlusCoerce none = some 0 ∧
    jsPlusCoerce (some "") = some 0 ∧
    (∀ r : EndemicRaw, r.countryLabel = none → (mkEndemicRow r).countryLabel = "") ∧
    (∀ r : EndemicRaw, r.iso3 = none → (mkEndemicRow r).iso3 = "") ∧
    (∀ r : EndemicRaw, r.totalEndemicSpecies = none →
        (mkEndemicRow r).totalEndemicSpecies = some 0) ∧
    (∀ (rows : List EndemicRaw) (k : Int),
        (mget (buildEndemicMap rows) k).isSome ↔ ∃ r ∈ rows, rawKey r.isoNum = some k) ∧
    mget (buildEndemicMap [allZeroRow7]) 7 = some (mkEndemicRow allZeroRow7) ∧
    (mkEndemicRow allZeroRow7).totalEndemicSpecies = some 0 ∧
    (mkEndemicRow allZeroRow7).nearThreatenedEndemicSpecies = some 0 ∧
    (mkEndemicRow allZeroRow7).vulnerableEndemicSpecies = some 0 ∧
    (mkEndemicRow allZeroRow7).endangeredEndemicSpecies = some 0 ∧
    (mkEndemicRow allZeroRow7).criticallyEndangeredEndemicSpecies = some 0 ∧
    hydrateCountryPanel zeroAbsentState "7" =
      PanelOutcome.results (some (mkEndemicRow allZeroRow7)) none none ∧
    hydrateCountryPanel zeroAbsentState "8" = PanelOutcome.results none none none ∧
    PanelOutcome.results (some (mkEndemicRow allZeroRow7)) none none ≠
      PanelOutcome.results none none none := by
  refine ⟨by decide, by decide, ?_, ?_, ?_, ?_, by decide, by decide, by decide, by decide,
    by decide, by decide, by decide, by decide, by decide⟩
  · intro r h
    simp [mkEndemicRow, h]
  · intro r h
    simp [mkEndemicRow, h]
  · intro r h
    simp [mkEndemicRow, h, jsPlusCoerce]
  · intro rows k
    rw [mget_isSome_iff]
    have h := mem_keysOf_buildFold (fun r : EndemicRaw => rawKey r.isoNum) mkEndemicRow rows [] k
    simpa [buildEndemicMap, keysOf] using h

/-- C3 witness: the implications of `zero_vs_absent_distinction` discharged on
the all-zero row and its one-row table. -/
theorem zero_vs_absent_distinction_witness :
    (mkEndemicRow allZeroRow7).countryLabel = "" ∧
    (mkEndemicRow allZeroRow7).totalEndemicSpecies = some 0 ∧
    (mget (buildEndemicMap [allZeroRow7]) 7).isSome := by
  refine ⟨zero_vs_absent_distinction.2.2.1 allZeroRow7 (by decide),
    zero_vs_absent_distinction.2.2.2.2.1 allZeroRow7 (by decide), ?_⟩
  exact (zero_vs_absent_distinction.2.2.2.2.2.1 [allZeroRow7] 7).mpr
    ⟨allZeroRow7, by decide, by decide⟩

/-- C3 counterexample data: a raw row with a valid key whose total is the
present but non-numeric string value xyz. -/
def unparseableTotalRow : EndemicRaw :=
  { countryLabel := none, iso3 := none, isoNum := some "76"
    totalEndemicSpecies := some "xyz"
    nearThreatenedEndemicSpecies := none
    vulnerableEndemicSpecies := none
    endangeredEndemicSpecies := none
    criticallyEndangeredEndemicSpecies := none }

/-- C3 counterexample to the claim as stated: a present, non-empty but
non-numeric total (`"xyz"`) is stored as NaN, not coerced to zero. -/
theorem unparseable_field_is_nan :
    (mget (buildEndemicMap [unparseableTotalRow]) 76).map
      (fun r => r.totalEndemicSpecies) = some none ∧
    (some (none : JSNum) ≠ some (some (0 : Int))) := by
  refine ⟨by decide, by decide⟩

/-- C10 (amended): the year-note formatter returns the empty string on an
empty set, the capitalized single-year note on a singleton, and on two or
more years the capitalized range note built from the least and greatest
elements (in the sort order used, lexicographic string comparison); with the
concrete sets of the spec, up to capitalization of the prefix. -/
theorem formatYearNote_spec :
    formatYearNote [] = "" ∧
    (∀ y : String, formatYearNote [y] = "Latest year: " ++ y) ∧
    (∀ l : List String, 2 ≤ l.length →
        ∃ a b, a ∈ l ∧ b ∈ l ∧ (∀ x ∈ l, strLe a x ∧ strLe x b) ∧
          formatYearNote l = "Latest years: " ++ a ++ "–" ++ b) ∧
    formatYearNote ["2020"] = "Latest year: 2020" ∧
    formatYearNote ["2018", "2021", "2019"] = "Latest years: 2018–2021" := by
  refine ⟨rfl, ?_, ?_, by decide, by decide⟩
  · intro y
    rfl
  · intro l h
    have hperm := List.perm_insertionSort strLe l
    have hlen : (sortJS l).length = l.length := hperm.length_eq
    have hs := List.sorted_insertionSort strLe l
    have hne : sortJS l ≠ [] := by
      apply List.ne_nil_of_length_pos
      omega
    refine ⟨(sortJS l).headD "", (sortJS l).getLastD "", ?_, ?_, ?_, ?_⟩
    · exact hperm.mem_iff.mp (headD_mem_of_ne_nil _ hne)
    · exact hperm.mem_iff.mp (getLastD_mem_of_ne_nil _ "" hne)
    · intro x hx
      have hx2 : x ∈ sortJS l := hperm.mem_iff.mpr hx
      exact ⟨sorted_headD_le (sortJS l) hs x hx2, sorted_le_getLastD (sortJS l) "" hs x hx2⟩
    · have h0 : ¬ l.length = 0 := by omega
      have h1 : ¬ (sortJS l).length = 1 := by omega
      simp [formatYearNote, h0, h1]

/-- C10 witness: the singleton and the three-year set of the spec, via the
general statement. -/
theorem formatYearNote_spec_witness :
    formatYearNote ["2020"] = "Latest year: " ++ "2020" ∧
    (∃ a b, a ∈ ["2018", "2021", "2019"] ∧ b ∈ ["2018", "2021", "2019"] ∧
      (∀ x ∈ ["2018", "2021", "2019"], strLe a x ∧ strLe x b) ∧
      formatYearNote ["2018", "2021", "2019"] = "Latest years: " ++ a ++ "–" ++ b) :=
  ⟨formatYearNote_spec.2.1 "2020",
    formatYearNote_spec.2.2.1 ["2018", "2021", "2019"] (by decide)⟩

/-- C10 counterexample to the claim as stated: the note is capitalized
(`Latest year:`), not the lowercase `latest year:` the claim quotes. -/
theorem formatYearNote_capitalization :
    formatYearNote ["2020"] = "Latest year: 2020" ∧
    formatYearNote ["2020"] ≠ "latest year: 2020" := by
  refine ⟨by decide, by decide⟩

/-- C4 (amended): when every attempt fails with retryable status 503 and
`retries = 3, baseDelayMs = 400`, exactly 4 fetch attempts are issued before
the failure is raised, with three inter-attempt waits; the wait before retry
`n` is `min(800, 400·n)` plus the jitter, so it lies in
`[min(800, 400·n), min(800, 400·n) + 400)` — for the third retry this is
`[800, 1200)`, not `[1200, 1200]`. -/
theorem retry_budget_and_capped_backoff (outcomes : Nat → FetchOutcome) (rands : Nat → ℚ)
    (hout : ∀ n, outcomes n = FetchOutcome.http 503)
    (hrand : ∀ n, 0 ≤ rands n ∧ rands n < 1) :
    runSparqlGETWithRetry outcomes rands 3 400 =
      { outcome := RunOutcome.failure "QLever error 503"
        fetchCalls := 4
        waits := [400 + rands 1 * 400, 800 + rands 2 * 400, 800 + rands 3 * 400] } ∧
    (400 ≤ 400 + rands 1 * 400 ∧ 400 + rands 1 * 400 < 800) ∧
    (800 ≤ 800 + rands 2 * 400 ∧ 800 + rands 2 * 400 < 1200) ∧
    (800 ≤ 800 + rands 3 * 400 ∧ 800 + rands 3 * 400 < 1200) := by
  have e0 := hout 0
  have e1 := hout 1
  have e2 := hout 2
  have e3 := hout 3
  have r1 := hrand 1
  have r2 := hrand 2
  have r3 := hrand 3
  refine ⟨?_, ⟨by linarith, by linarith⟩, ⟨by linarith, by linarith⟩,
    ⟨by linarith, by linarith⟩⟩
  simp only [runSparqlGETWithRetry, runRetryLoop, e0, e1, e2, e3, retryableStatus,
    delayWithJitter]
  norm_num
  rfl

/-- C4 witness: the bound and trace shape at the all-503 network with zero
jitter. -/
theorem retry_budget_and_capped_backoff_witness :
    runSparqlGETWithRetry (fun _ => FetchOutcome.http 503) (fun _ => 0) 3 400 =
      { outcome := RunOutcome.failure "QLever error 503"
        fetchCalls := 4
        waits := [400, 800, 800] } := by
  have h := (retry_budget_and_capped_backoff (fun _ => FetchOutcome.http 503) (fun _ => 0)
    (fun _ => rfl) (fun _ => by norm_num)).1
  simpa using h

/-- C4 counterexample to the claim as stated: before the third retry the wait
with zero jitter is 800 ms, below the claimed lower bound `base×n = 1200`. -/
theorem delay_lower_bound_fails_at_third_retry :
    (runSparqlGETWithRetry (fun _ => FetchOutcome.http 503) (fun _ => 0) 3 400).waits.getD 2 0 =
      800 ∧
    ¬ ((400 : ℚ) * 3 ≤ 800) := by
  constructor
  · simp [runSparqlGETWithRetry, runRetryLoop, retryableStatus, delayWithJitter]
    norm_num
  · norm_num

/-- C5 (code bug): a non-retryable HTTP failure (status 500) is nevertheless
retried, because the deliberately thrown `QLever error` lands in the
function's own catch-all `catch`; with `retries = 3` the endpoint is fetched
4 times before the failure is raised, instead of failing after the first
attempt. -/
theorem nonretryable_status_is_retried :
    runSparqlGETWithRetry (fun _ => FetchOutcome.http 500) (fun _ => 0) 3 400 =
      { outcome := RunOutcome.failure "QLever error 500"
        fetchCalls := 4
        waits := [400, 800, 800] } := by
  simp [runSparqlGETWithRetry, runRetryLoop, retryableStatus, delayWithJitter]
  norm_num
  rfl

/-- C6 (code bug): there is no timeout machinery at all — a fetch whose
promise never settles suspends `runSparqlGETWithRetry` forever on its first
attempt: no abort, no classification as a transient failure, no retry. -/
theorem hanging_request_never_retried :
    runSparqlGETWithRetry (fun _ => FetchOutcome.hang) (fun _ => 0) 3 400 =
      { outcome := RunOutcome.neverResolves, fetchCalls := 1, waits := [] } := by
  simp [runSparqlGETWithRetry, runRetryLoop]

/-- C7 (amended): a recorded preload failure is remembered for the whole
session — no code path ever clears `preloadError`, and every country-panel
demand made in such a state reports failure — but later `ensureDataReady`
calls do NOT short-circuit on it: whenever the three tables are not all
populated, the full sequential preload runs again and network fetches are
re-issued. -/
theorem preload_failure_remembered_but_refetches :
    (∀ (env : NetEnv) (s : AppState), s.preloadError = true →
        ((ensureDataReady env s).1).preloadError = true) ∧
    (∀ (s : AppState) (fid : String) (k : Int),
        s.preloadError = true → parseIntJS fid = some k →
        hydrateCountryPanel s fid = PanelOutcome.failed) ∧
    (∀ (env : NetEnv) (s : AppState),
        ¬ (s.endemicTable.isSome ∧ s.gdpTable.isSome ∧ s.populationTable.isSome) →
        (ensureDataReady env s).2.2 ≠ []) := by
  refine ⟨?_, ?_, ?_⟩
  · intro env s h
    unfold ensureDataReady
    by_cases hc : s.endemicTable.isSome ∧ s.gdpTable.isSome ∧ s.populationTable.isSome
    · simp [hc, h]
    · simp only [hc, if_false]
      rcases he : env.endemic with _ | er
      · simp [preloadAllTables, he]
      · rcases hg : env.gdp with _ | gr
        · simp [preloadAllTables, he, hg, h]
        · rcases hp : env.pop with _ | pr
          · simp [preloadAllTables, he, hg, hp, h]
          · simp [preloadAllTables, he, hg, hp, h]
  · intro s fid k herr hparse
    unfold hydrateCountryPanel
    simp [hparse, herr]
  · intro env s hc
    unfold ensureDataReady
    simp only [hc, if_false]
    rcases he : env.endemic with _ | er
    · simp [preloadAllTables, he]
    · rcases hg : env.gdp with _ | gr
      · simp [preloadAllTables, he, hg]
      · rcases hp : env.pop with _ | pr
        · simp [preloadAllTables, he, hg, hp]
        · simp [preloadAllTables, he, hg, hp]

/-- C7 witness data: empty tables with the failure flag set. -/
def erroredEmptyState : AppState :=
  { endemicTable := none, gdpTable := none, populationTable := none, preloadError := true }

/-- C7 witness: a state with a remembered failure and empty tables keeps the
flag, fails the panel demand, and still issues fetches on the next demand. -/
theorem preload_failure_remembered_witness :
    ((ensureDataReady { endemic := some [], gdp := some [], pop := some [] }
        erroredEmptyState).1).preloadError = true ∧
    hydrateCountryPanel erroredEmptyState "7" = PanelOutcome.failed ∧
    (ensureDataReady { endemic := some [], gdp := some [], pop := some [] }
        erroredEmptyState).2.2 ≠ [] :=
  ⟨preload_failure_remembered_but_refetches.1 _ _ rfl,
    preload_failure_remembered_but_refetches.2.1 _ "7" 7 rfl (by decide),
    preload_failure_remembered_but_refetches.2.2 _ _ (by decide)⟩

/-- C7 counterexample to the claim as stated: after a first demand in which
the biodiversity fetch succeeded and the GDP fetch failed, the next demand
does not short-circuit — it re-runs the preload, re-issuing all three
queries, including the biodiversity one that had already succeeded. -/
theorem failed_preload_refetches_network :
    ((ensureDataReady { endemic := some [], gdp := none, pop := none }
        initialAppState).1).preloadError = true ∧
    (ensureDataReady { endemic := some [], gdp := some [], pop := some [] }
        (ensureDataReady { endemic := some [], gdp := none, pop := none }
          initialAppState).1).2.2 = [Domain.endemic, Domain.gdp, Domain.pop] ∧
    Domain.endemic ∈ (ensureDataReady { endemic := some [], gdp := some [], pop := some [] }
        (ensureDataReady { endemic := some [], gdp := none, pop := none }
          initialAppState).1).2.2 := by
  refine ⟨by decide, by decide, by decide⟩

/-- C8 (amended): once all three tables are populated, `ensureDataReady`
returns at once — same state, no fetches; and no call ever clears a
populated table.  (A table populated during a partly failed preload can
however be repopulated — see the counterexample.) -/
theorem ensureDataReady_idempotent_after_success :
    (∀ (env : NetEnv) (s : AppState),
        s.endemicTable.isSome → s.gdpTable.isSome → s.populationTable.isSome →
        ensureDataReady env s = (s, LoadResult.ok, [])) ∧
    (∀ (env : NetEnv) (s : AppState),
        (s.endemicTable.isSome → ((ensureDataReady env s).1).endemicTable.isSome) ∧
        (s.gdpTable.isSome → ((ensureDataReady env s).1).gdpTable.isSome) ∧
        (s.populationTable.isSome → ((ensureDataReady env s).1).populationTable.isSome)) := by
  constructor
  · intro env s h1 h2 h3
    unfold ensureDataReady
    simp [h1, h2, h3]
  · intro env s
    unfold ensureDataReady
    by_cases hc : s.endemicTable.isSome ∧ s.gdpTable.isSome ∧ s.populationTable.isSome
    · simp [hc]
    · simp only [hc, if_false]
      rcases he : env.endemic with _ | er
      · simp [preloadAllTables, he]
      · rcases hg : env.gdp with _ | gr
        · simp [preloadAllTables, he, hg]
        · rcases hp : env.pop with _ | pr
          · simp [preloadAllTables, he, hg, hp]
          · simp [preloadAllTables, he, hg, hp]

/-- C8 witness data: a state whose three tables are populated (empty maps). -/
def readyTablesState : AppState :=
  { endemicTable := some [], gdpTable := some [], populationTable := some [],
    preloadError := false }

/-- C8 witness: a ready state with three populated tables is returned as-is
with no fetches. -/
theorem ensureDataReady_idempotent_witness :
    ensureDataReady { endemic := none, gdp := none, pop := none } readyTablesState =
      (readyTablesState, LoadResult.ok, []) :=
  ensureDataReady_idempotent_after_success.1 _ _ rfl rfl rfl

/-- C8 scenario row used to exhibit repopulation. -/
def repopulationRow : EndemicRaw :=
  { countryLabel := none, iso3 := none, isoNum := some "5"
    totalEndemicSpecies := some "3"
    nearThreatenedEndemicSpecies := none
    vulnerableEndemicSpecies := none
    endangeredEndemicSpecies := none
    criticallyEndangeredEndemicSpecies := none }

/-- C8 counterexample to the claim as stated: in a session whose first
preload failed after the biodiversity fetch, the biodiversity table is
populated a second time by the next demand (with different contents here),
so the tables are not populated at most once per session. -/
theorem table_repopulated_after_partial_failure :
    ((ensureDataReady { endemic := some [], gdp := none, pop := none }
        initialAppState).1).endemicTable = some [] ∧
    ((ensureDataReady { endemic := some [repopulationRow], gdp := some [], pop := some [] }
        (ensureDataReady { endemic := some [], gdp := none, pop := none }
          initialAppState).1).1).endemicTable =
      some [(5, mkEndemicRow repopulationRow)] ∧
    some ([] : JsMap EndemicRow) ≠ some [(5, mkEndemicRow repopulationRow)] := by
  refine ⟨by decide, by decide, by decide⟩

/-- C9 (amended): the three domain fetches are issued strictly in sequence
(biodiversity, then GDP, then population): a failure aborts the preload at
that point, so the earlier domains' tables are built and the later domains
are never queried at all. -/
theorem preload_sequential_dependency :
    (∀ (env : NetEnv) (s : AppState), env.endemic = none →
        preloadAllTables env s = (s, LoadResult.failed, [Domain.endemic])) ∧
    (∀ (env : NetEnv) (s : AppState) (rows : List EndemicRaw),
        env.endemic = some rows → env.gdp = none →
        preloadAllTables env s =
          ({ s with endemicTable := some (buildEndemicMap rows) }, LoadResult.failed,
            [Domain.endemic, Domain.gdp])) ∧
    (∀ (env : NetEnv) (s : AppState) (rows : List EndemicRaw) (grows : List GdpRaw),
        env.endemic = some rows → env.gdp = some grows → env.pop = none →
        preloadAllTables env s =
          ({ s with endemicTable := some (buildEndemicMap rows), gdpTable := some (buildGdpMap grows) },
            LoadResult.failed, [Domain.endemic, Domain.gdp, Domain.pop])) := by
  refine ⟨?_, ?_, ?_⟩
  · intro env s he
    simp [preloadAllTables, he]
  · intro env s rows he hg
    simp [preloadAllTables, he, hg]
  · intro env s rows grows he hg hp
    simp [preloadAllTables, he, hg, hp]

/-- C9 witness: the sequential-abort shape at a network where the
biodiversity query fails and the two others would succeed. -/
theorem preload_sequential_dependency_witness :
    preloadAllTables { endemic := none, gdp := some [], pop := some [] } initialAppState =
      (initialAppState, LoadResult.failed, [Domain.endemic]) :=
  preload_sequential_dependency.1 _ _ rfl

/-- C9 counterexample to the claim as stated: when the biodiversity fetch
fails, the GDP query — which would itself succeed — is never attempted and
its table is never built, so the three fetches are not independent. -/
theorem later_domains_skipped_on_failure :
    (preloadAllTables { endemic := none, gdp := some [], pop := some [] }
        initialAppState).2.2 = [Domain.endemic] ∧
    Domain.gdp ∉ [Domain.endemic] ∧
    ((preloadAllTables { endemic := none, gdp := some [], pop := some [] }
        initialAppState).1).gdpTable = none := by
  refine ⟨by decide, by decide, by decide⟩
